import Mathlib

/-!
Shallow embedding of `src/Jeopardy-test.py` (a console Jeopardy-style quiz).

The embedding follows the Python source closely:
* Python strings are Lean `String`s; `str.strip()`/`str.lower()` are modelled
  by `pyStrip`/`pyLower` (ASCII whitespace and ASCII case, which covers every
  string occurring in this program).
* The `Player` object's attribute dictionary is modelled explicitly as an
  association list keyed by the (name-mangled) Python attribute names, because
  `save_score` looks up an attribute (`_save_file`) that `__init__` never set
  (`__init__` sets `__save_file`, mangled to `_Player__save_file`); a missing
  lookup models Python's `AttributeError`.
* The single persisted file `highscores.json` is modelled by `FS`: absent,
  present-but-unparsable, or a parsed JSON list of `{name, score}` entries.
* Fallible methods return `Except PyError α`; a raised exception that escapes
  the method is `Except.error`.
-/

namespace Jeopardy

/-- Python exceptions that the modelled code can raise. -/
inductive PyError where
  | attributeError (attr : String)
  deriving DecidableEq, Repr

/-- Characters removed by Python's `str.strip()` (ASCII whitespace). -/
def isPySpace (c : Char) : Bool :=
  c = ' ' || c = '\t' || c = '\n' || c = '\r' || c = '\x0b' || c = '\x0c'

/-- Model of Python `str.strip()`: drop leading and trailing whitespace. -/
def pyStrip (s : String) : String :=
  ⟨((s.data.dropWhile isPySpace).reverse.dropWhile isPySpace).reverse⟩

/-- ASCII lowercasing of a single character, as Python `str.lower()` does on
ASCII input. -/
def pyLowerChar (c : Char) : Char :=
  if 'A' ≤ c ∧ c ≤ 'Z' then Char.ofNat (c.toNat + 32) else c

/-- Model of Python `str.lower()` (ASCII fragment). -/
def pyLower (s : String) : String :=
  ⟨s.data.map pyLowerChar⟩

/-- One leaderboard record `{"name": ..., "score": ...}`. -/
structure Entry where
  name : String
  score : Int
  deriving DecidableEq, Repr

/-- State of the single persisted file `highscores.json`. -/
inductive FS where
  /-- `os.path.exists` is false. -/
  | absent
  /-- The file exists but `json.load` raises `JSONDecodeError`. -/
  | corrupt
  /-- The file exists and parses as a JSON list of entries. -/
  | entries (l : List Entry)
  deriving DecidableEq, Repr

/-- A `Player` object: its Python attribute dictionary, keyed by the
name-mangled attribute names that `__init__` actually sets. -/
structure Player where
  attrs : List (String × String)
  deriving DecidableEq, Repr

/-- Python attribute lookup on a `Player`; `none` models `AttributeError`. -/
def Player.getattr (p : Player) (a : String) : Option String :=
  p.attrs.lookup a

/-- `Player.__init__`: sets `self.__player_name` and `self.__save_file`,
which Python name-mangles to `_Player__player_name` and `_Player__save_file`. -/
def Player.init (player_name : String := "Anonymous") : Player :=
  ⟨[("_Player__player_name", player_name), ("_Player__save_file", "highscores.json")]⟩

/-- Stable insertion into a descending-by-score list: a new entry goes after
existing entries with the same score, as Python's stable `sorted` with
`reverse=True` would order them. -/
def insertDesc (e : Entry) : List Entry → List Entry
  | [] => [e]
  | x :: xs => if e.score > x.score then e :: x :: xs else x :: insertDesc e xs

/-- Model of `sorted(highscores, key=lambda x: x["score"], reverse=True)`:
stable sort, descending by score. -/
def sortByScoreDesc (l : List Entry) : List Entry :=
  l.foldl (fun acc e => insertDesc e acc) []

/-- `Player.save_score`: the Python body first evaluates
`os.path.exists(self._save_file)`, reading attribute `_save_file` — which
`__init__` never set (it set `__save_file`, mangled to `_Player__save_file`) —
so the lookup fails before any file operation. The rest of the body
(read, append, stable sort descending, truncate to 10, write) is modelled
faithfully after that lookup. -/
def Player.save_score (p : Player) (fs : FS) (score : Int) :
    Except PyError FS :=
  -- highscores = []
  match p.getattr "_save_file" with
  | none => .error (.attributeError "_save_file")
  | some _ =>
    let highscores : List Entry :=
      match fs with
      | .absent => []
      | .corrupt => []        -- except json.JSONDecodeError: highscores = []
      | .entries l => l
    match p.getattr "_Player__player_name" with
    | none => .error (.attributeError "_Player__player_name")
    | some name =>
      let highscores := highscores ++ [⟨name, score⟩]
      let highscores := (sortByScoreDesc highscores).take 10
      .ok (.entries highscores)

/-- `Player.load_highscores`: if the file exists, return the parsed JSON (or
`[]` on `JSONDecodeError`); if the file does not exist the Python function
falls off the end and returns `None`, modelled as `Option.none`. -/
def Player.load_highscores (p : Player) (fs : FS) :
    Except PyError (Option (List Entry)) :=
  match p.getattr "_Player__save_file" with
  | none => .error (.attributeError "_Player__save_file")
  | some _ =>
    match fs with
    | .absent => .ok none
    | .corrupt => .ok (some [])
    | .entries l => .ok (some l)

/-- The `Question` class. `qid` models Python object identity (`id(q)`):
each `Question(...)` call in `__initialize_questions` creates a distinct
object, so each question literal below carries a distinct `qid`. -/
structure Question where
  qid : Nat
  question_text : String
  answers : List String
  correct_answer : String
  points : Int := 100
  deriving DecidableEq, Repr, Inhabited

/-- The `QuizGame` object state: the category → questions dictionary, the
score, the set of `id`s of used questions, and the current player. -/
structure QuizGame where
  question_bank : List (String × List Question)
  score : Int
  used_questions : Finset Nat
  player : Option Player
  deriving DecidableEq

/-- The `science_questions` list from `__initialize_questions`. -/
def science_questions : List Question :=
  [⟨0, "What is the chemical symbol for gold?", ["Au", "Go", "Gd", "Ag"], "Au", 100⟩,
   ⟨1, "How many bones are in an adult human body?", ["206", "208", "204", "210"], "206", 200⟩,
   ⟨2, "What gas makes up about 78% of Earth's atmosphere?", ["Oxygen", "Carbon Dioxide", "Nitrogen", "Argon"], "Nitrogen", 300⟩,
   ⟨3, "What is the hardest natural substance on Earth?", ["Quartz", "Diamond", "Ruby", "Sapphire"], "Diamond", 400⟩,
   ⟨4, "What is the speed of light in a vacuum (in m/s)?", ["299,792,458", "300,000,000", "299,000,000", "298,792,458"], "299,792,458", 500⟩]

/-- The `history_questions` list from `__initialize_questions`. -/
def history_questions : List Question :=
  [⟨5, "In which year did World War II end?", ["1944", "1945", "1946", "1947"], "1945", 100⟩,
   ⟨6, "Who was the first President of the United States?", ["Thomas Jefferson", "John Adams", "George Washington", "Benjamin Franklin"], "George Washington", 200⟩,
   ⟨7, "Which ancient wonder of the world was located in Alexandria?", ["Colossus of Rhodes", "Lighthouse of Alexandria", "Hanging Gardens", "Statue of Zeus"], "Lighthouse of Alexandria", 300⟩,
   ⟨8, "What year did the Berlin Wall fall?", ["1987", "1988", "1989", "1990"], "1989", 400⟩,
   ⟨9, "Which empire was ruled by Julius Caesar?", ["Greek Empire", "Byzantine Empire", "Roman Empire", "Persian Empire"], "Roman Empire", 500⟩]

/-- The `geography_questions` list from `__initialize_questions`. -/
def geography_questions : List Question :=
  [⟨10, "What is the capital of Australia?", ["Sydney", "Melbourne", "Canberra", "Perth"], "Canberra", 100⟩,
   ⟨11, "Which is the longest river in the world?", ["Amazon", "Nile", "Yangtze", "Mississippi"], "Nile", 200⟩,
   ⟨12, "How many continents are there?", ["5", "6", "7", "8"], "7", 300⟩,
   ⟨13, "Which country has the most natural lakes?", ["Russia", "Canada", "Finland", "Norway"], "Canada", 400⟩,
   ⟨14, "What is the deepest ocean trench?", ["Puerto Rico Trench", "Java Trench", "Mariana Trench", "Peru-Chile Trench"], "Mariana Trench", 500⟩]

/-- The `literature_questions` list from `__initialize_questions`. -/
def literature_questions : List Question :=
  [⟨15, "Who wrote 'Romeo and Juliet'?", ["Charles Dickens", "William Shakespeare", "Jane Austen", "Mark Twain"], "William Shakespeare", 100⟩,
   ⟨16, "Which novel begins with 'Call me Ishmael'?", ["The Great Gatsby", "Moby Dick", "To Kill a Mockingbird", "1984"], "Moby Dick", 200⟩,
   ⟨17, "Who wrote 'Pride and Prejudice'?", ["Charlotte Bronte", "Emily Bronte", "Jane Austen", "George Eliot"], "Jane Austen", 300⟩,
   ⟨18, "In which Shakespeare play does the character Iago appear?", ["Hamlet", "Macbeth", "Othello", "King Lear"], "Othello", 400⟩,
   ⟨19, "Who wrote the epic poem 'Paradise Lost'?", ["John Milton", "Geoffrey Chaucer", "Edmund Spenser", "William Blake"], "John Milton", 500⟩]

/-- The `sports_questions` list from `__initialize_questions`. -/
def sports_questions : List Question :=
  [⟨20, "How many players are on a basketball team on the court at one time?", ["4", "5", "6", "7"], "5", 100⟩,
   ⟨21, "In which sport would you perform a slam dunk?", ["Volleyball", "Tennis", "Basketball", "Football"], "Basketball", 200⟩,
   ⟨22, "How often are the Summer Olympic Games held?", ["Every 2 years", "Every 3 years", "Every 4 years", "Every 5 years"], "Every 4 years", 300⟩,
   ⟨23, "What is the maximum score possible in ten-pin bowling?", ["250", "270", "300", "350"], "300", 400⟩,
   ⟨24, "Which country has won the most FIFA World Cups?", ["Germany", "Argentina", "Brazil", "Italy"], "Brazil", 500⟩]

/-- The dictionary built by `QuizGame.__initialize_questions`. -/
def initial_question_bank : List (String × List Question) :=
  [("Science", science_questions),
   ("History", history_questions),
   ("Geography", geography_questions),
   ("Literature", literature_questions),
   ("Sports", sports_questions)]

/-- `QuizGame.__init__`: empty used set, score 0, no player, and the bank
filled by `__initialize_questions`. -/
def QuizGame.init : QuizGame :=
  { question_bank := initial_question_bank
    score := 0
    used_questions := ∅
    player := none }

/-- The linear search in `QuizGame.display_question`: first question in the
category list whose points match and whose `id` is not in the used set. -/
def findUnused (used : Finset Nat) (points : Int) : List Question → Option Question
  | [] => none
  | q :: rest =>
    if q.points = points ∧ q.qid ∉ used then some q
    else findUnused used points rest

/-- `QuizGame.display_question(category, points)`: returns `None` if the
category is unknown or no unused question matches; otherwise marks the found
question used (adds `id(question)` to the used set) and returns it. -/
def QuizGame.display_question (g : QuizGame) (category : String) (points : Int) :
    Option Question × QuizGame :=
  match g.question_bank.lookup category with
  | none => (none, g)
  | some qs =>
    match findUnused g.used_questions points qs with
    | none => (none, g)
    | some q => (some q, { g with used_questions := insert q.qid g.used_questions })

/-- The boolean computed by `QuizGame.check_answer`:
`user_answer.strip().lower() == correct_answer.strip().lower()`. -/
def answerMatches (q : Question) (user_answer : String) : Bool :=
  pyLower (pyStrip user_answer) == pyLower (pyStrip q.correct_answer)

/-- `QuizGame.check_answer(question, user_answer)`: returns the comparison
result (`is_correct`) and adds the question's points to the score exactly
when it is true. -/
def QuizGame.check_answer (g : QuizGame) (question : Question) (user_answer : String) :
    Bool × QuizGame :=
  if answerMatches question user_answer then
    (true, { g with score := g.score + question.points })
  else (false, g)

/-- `QuizGame.get_score`. -/
def QuizGame.get_score (g : QuizGame) : Int := g.score

/-- `QuizGame.shuffle_question_bank`: applies `random.shuffle` to each
category's list in place. The nondeterministic outcome of `random.shuffle`
is modelled by the parameter `σ`, giving the rearranged list per category;
faithfulness of `σ` to `random.shuffle` (being a permutation) is a
hypothesis of the theorems about it. -/
def QuizGame.shuffle_question_bank (g : QuizGame)
    (σ : String → List Question → List Question) : QuizGame :=
  { g with question_bank := g.question_bank.map fun cq => (cq.1, σ cq.1 cq.2) }

/-- `QuizGame.reset_game`: score back to 0, used set cleared. -/
def QuizGame.reset_game (g : QuizGame) : QuizGame :=
  { g with score := 0, used_questions := ∅ }

/-- `sum(len(questions) for questions in self.__question_bank.values())`. -/
def QuizGame.total_questions (g : QuizGame) : Nat :=
  (g.question_bank.map fun cq => cq.2.length).sum

/-- `QuizGame.is_game_complete`: `len(used_questions) >= total_questions`. -/
def QuizGame.is_game_complete (g : QuizGame) : Bool :=
  g.total_questions ≤ g.used_questions.card

/-- `QuizGame.get_available_categories`: categories with at least one
question whose `id` is not used. -/
def QuizGame.get_available_categories (g : QuizGame) : List String :=
  (g.question_bank.filter fun cq =>
    cq.2.any fun q => q.qid ∉ g.used_questions).map (·.1)

/-- Insertion into an ascending list of integers, for `sorted(...)`. -/
def insertAsc (x : Int) : List Int → List Int
  | [] => [x]
  | y :: ys => if x ≤ y then x :: y :: ys else y :: insertAsc x ys

/-- Model of Python `sorted` on a list of integers (ascending). -/
def sortAsc : List Int → List Int
  | [] => []
  | x :: xs => insertAsc x (sortAsc xs)

/-- `QuizGame.get_available_points(category)`: `[]` for an unknown category,
otherwise the sorted point values of the unused questions in it. -/
def QuizGame.get_available_points (g : QuizGame) (category : String) : List Int :=
  match g.question_bank.lookup category with
  | none => []
  | some qs =>
    sortAsc ((qs.filter fun q => q.qid ∉ g.used_questions).map (·.points))

/-- `QuizGame.set_player`. -/
def QuizGame.set_player (g : QuizGame) (player : Player) : QuizGame :=
  { g with player := some player }

/-- A question whose canonical answer is "Paris", as used by the spec's
case-insensitivity scenario (`check_answer` accepts any `Question` object). -/
def parisQuestion : Question :=
  ⟨100, "What is the capital of France?", ["Paris", "London", "Berlin", "Madrid"], "Paris", 100⟩

/-- Run a sequence of `check_answer` calls, threading the game state. -/
def runChecks : QuizGame → List (Question × String) → QuizGame
  | g, [] => g
  | g, (q, a) :: rest => runChecks (g.check_answer q a).2 rest

/-- Sum of the points of exactly the calls on which `check_answer` returns
`True` (its result is the pure comparison `answerMatches`, independent of
the game state). -/
def correctPoints (calls : List (Question × String)) : Int :=
  ((calls.filter fun qa => answerMatches qa.1 qa.2).map fun qa => qa.1.points).sum

/-- All `id`s occurring in the question bank, in order. -/
def bankQids (g : QuizGame) : List Nat :=
  (g.question_bank.map fun cq => cq.2.map Question.qid).flatten

/-- The question bank holds, per category, a permutation of the list built
by `__initialize_questions` (shuffling is the only operation that touches
the bank, and it permutes within each category). -/
def bankInv (g : QuizGame) : Prop :=
  ∀ c qs, g.question_bank.lookup c = some qs →
    ∃ qs₀, initial_question_bank.lookup c = some qs₀ ∧ qs.Perm qs₀

/-- One state-mutating call on the `QuizGame` object. The flag tells whether
`reset_game` is among the allowed calls; getters are pure and need no step.
`random.shuffle`'s nondeterministic outcome is a constructor argument,
constrained to be a permutation per category. -/
inductive Step : Bool → QuizGame → QuizGame → Prop where
  | display (r : Bool) (g : QuizGame) (c : String) (p : Int) :
      Step r g (g.display_question c p).2
  | check (r : Bool) (g : QuizGame) (q : Question) (a : String) :
      Step r g (g.check_answer q a).2
  | shuffle (r : Bool) (g : QuizGame) (σ : String → List Question → List Question)
      (hσ : ∀ c qs, (σ c qs).Perm qs) :
      Step r g (g.shuffle_question_bank σ)
  | set_player (r : Bool) (g : QuizGame) (pl : Player) :
      Step r g (g.set_player pl)
  | reset (g : QuizGame) :
      Step true g g.reset_game

/-- Zero or more `Step`s. `Reach true` allows `reset_game`; `Reach false`
is reachability in the absence of an intervening `reset_game`. -/
def Reach (withReset : Bool) : QuizGame → QuizGame → Prop :=
  Relation.ReflTransGen (Step withReset)

/-- A 2-category × 2-question store with 3 of the 4 questions marked used,
the spec's own test store for `is_game_complete`. -/
def twoByTwoGame : QuizGame :=
  { question_bank :=
      [("A", [⟨0, "a1", ["x"], "x", 100⟩, ⟨1, "a2", ["x"], "x", 200⟩]),
       ("B", [⟨2, "b1", ["x"], "x", 100⟩, ⟨3, "b2", ["x"], "x", 200⟩])]
    score := 0
    used_questions := {0, 1, 2}
    player := none }

/-! ## Helper lemmas -/

theorem findUnused_eq_some {used : Finset Nat} {p : Int} {qs : List Question} {q : Question}
    (h : findUnused used p qs = some q) :
    q ∈ qs ∧ q.points = p ∧ q.qid ∉ used := by
  induction qs with
  | nil => simp [findUnused] at h
  | cons x rest ih =>
    rw [findUnused] at h
    split at h
    · next hc =>
      cases h
      exact ⟨List.mem_cons_self q rest, hc.1, hc.2⟩
    · next hc =>
      obtain ⟨h1, h2, h3⟩ := ih h
      exact ⟨List.mem_cons_of_mem x h1, h2, h3⟩

theorem findUnused_eq_none {used : Finset Nat} {p : Int} {qs : List Question} :
    findUnused used p qs = none ↔ ∀ q ∈ qs, ¬(q.points = p ∧ q.qid ∉ used) := by
  induction qs with
  | nil => simp [findUnused]
  | cons x rest ih =>
    rw [findUnused]
    split
    · next hc =>
      constructor
      · intro h
        exact absurd h (Option.some_ne_none x)
      · intro h
        exact absurd hc (h x (List.mem_cons_self x rest))
    · next hc =>
      rw [ih, List.forall_mem_cons]
      simp [hc]

theorem display_question_eq_some {g : QuizGame} {c : String} {p : Int} {q : Question}
    (h : (g.display_question c p).1 = some q) :
    ∃ qs, g.question_bank.lookup c = some qs ∧
      findUnused g.used_questions p qs = some q ∧
      (g.display_question c p).2 =
        { g with used_questions := insert q.qid g.used_questions } := by
  cases hl : g.question_bank.lookup c with
  | none => simp [QuizGame.display_question, hl] at h
  | some qs =>
    cases hf : findUnused g.used_questions p qs with
    | none => simp [QuizGame.display_question, hl, hf] at h
    | some q' =>
      have hq : q' = q := by simpa [QuizGame.display_question, hl, hf] using h
      subst hq
      exact ⟨qs, rfl, hf, by simp [QuizGame.display_question, hl, hf]⟩

theorem display_question_none_state {g : QuizGame} {c : String} {p : Int}
    (h : (g.display_question c p).1 = none) : (g.display_question c p).2 = g := by
  cases hl : g.question_bank.lookup c with
  | none => simp [QuizGame.display_question, hl]
  | some qs =>
    cases hf : findUnused g.used_questions p qs with
    | none => simp [QuizGame.display_question, hl, hf]
    | some q' => simp [QuizGame.display_question, hl, hf] at h

theorem display_question_used_superset (g : QuizGame) (c : String) (p : Int) :
    g.used_questions ⊆ ((g.display_question c p).2).used_questions := by
  cases hl : g.question_bank.lookup c with
  | none => simp [QuizGame.display_question, hl]
  | some qs =>
    cases hf : findUnused g.used_questions p qs with
    | none => simp [QuizGame.display_question, hl, hf]
    | some q' => simp [QuizGame.display_question, hl, hf, Finset.subset_insert]

theorem display_question_bank (g : QuizGame) (c : String) (p : Int) :
    ((g.display_question c p).2).question_bank = g.question_bank := by
  cases hl : g.question_bank.lookup c with
  | none => simp [QuizGame.display_question, hl]
  | some qs =>
    cases hf : findUnused g.used_questions p qs with
    | none => simp [QuizGame.display_question, hl, hf]
    | some q' => simp [QuizGame.display_question, hl, hf]

theorem display_question_score (g : QuizGame) (c : String) (p : Int) :
    ((g.display_question c p).2).score = g.score := by
  cases hl : g.question_bank.lookup c with
  | none => simp [QuizGame.display_question, hl]
  | some qs =>
    cases hf : findUnused g.used_questions p qs with
    | none => simp [QuizGame.display_question, hl, hf]
    | some q' => simp [QuizGame.display_question, hl, hf]

theorem check_answer_fst (g : QuizGame) (q : Question) (a : String) :
    (g.check_answer q a).1 = answerMatches q a := by
  unfold QuizGame.check_answer
  split <;> simp_all

theorem check_answer_used (g : QuizGame) (q : Question) (a : String) :
    ((g.check_answer q a).2).used_questions = g.used_questions := by
  unfold QuizGame.check_answer
  split <;> rfl

theorem check_answer_bank (g : QuizGame) (q : Question) (a : String) :
    ((g.check_answer q a).2).question_bank = g.question_bank := by
  unfold QuizGame.check_answer
  split <;> rfl

theorem check_answer_score (g : QuizGame) (q : Question) (a : String) :
    ((g.check_answer q a).2).score =
      if answerMatches q a then g.score + q.points else g.score := by
  unfold QuizGame.check_answer
  split <;> simp_all

theorem correctPoints_cons (q : Question) (a : String) (rest : List (Question × String)) :
    correctPoints ((q, a) :: rest) =
      if answerMatches q a then q.points + correctPoints rest else correctPoints rest := by
  unfold correctPoints
  cases hm : answerMatches q a <;> simp [List.filter_cons, hm]

theorem runChecks_score (g : QuizGame) (calls : List (Question × String)) :
    (runChecks g calls).score = g.score + correctPoints calls := by
  induction calls generalizing g with
  | nil => simp [runChecks, correctPoints]
  | cons qa rest ih =>
    obtain ⟨q, a⟩ := qa
    rw [show runChecks g ((q, a) :: rest) = runChecks (g.check_answer q a).2 rest from rfl,
      ih, check_answer_score, correctPoints_cons]
    cases hm : answerMatches q a with
    | true => simp only [if_pos rfl, reduceIte]; ring
    | false => simp

theorem lookup_map_shuffle (σ : String → List Question → List Question)
    (l : List (String × List Question)) (c : String) :
    (l.map fun cq => (cq.1, σ cq.1 cq.2)).lookup c = (l.lookup c).map (σ c) := by
  induction l with
  | nil => rfl
  | cons x rest ih =>
    obtain ⟨k, v⟩ := x
    cases hk : c == k with
    | true =>
      have : c = k := beq_iff_eq.mp hk
      subst this
      simp [List.lookup]
    | false => simp [List.lookup, hk, ih]

theorem lookup_mem {l : List (String × List Question)} {c : String} {qs : List Question}
    (h : l.lookup c = some qs) : (c, qs) ∈ l := by
  induction l with
  | nil => simp [List.lookup] at h
  | cons x rest ih =>
    obtain ⟨k, v⟩ := x
    cases hk : c == k with
    | true =>
      have hck : c = k := beq_iff_eq.mp hk
      subst hck
      rw [List.lookup, hk] at h
      cases h
      exact List.mem_cons_self _ _
    | false =>
      rw [List.lookup, hk] at h
      exact List.mem_cons_of_mem _ (ih h)

theorem step_used_mono {g g' : QuizGame} (h : Step false g g') :
    g.used_questions ⊆ g'.used_questions := by
  cases h with
  | display _ _ c p => exact display_question_used_superset g c p
  | check _ _ q a => rw [check_answer_used]
  | shuffle _ _ σ hσ => exact Finset.Subset.refl _
  | set_player _ _ pl => exact Finset.Subset.refl _

theorem reach_used_mono {g g' : QuizGame} (h : Reach false g g') :
    g.used_questions ⊆ g'.used_questions := by
  induction h with
  | refl => exact Finset.Subset.refl _
  | tail _ hstep ih => exact ih.trans (step_used_mono hstep)

theorem bankInv_init : bankInv QuizGame.init := by
  intro c qs h
  exact ⟨qs, h, List.Perm.refl qs⟩

theorem step_bankInv {r : Bool} {g g' : QuizGame} (h : Step r g g') (hb : bankInv g) :
    bankInv g' := by
  cases h with
  | display _ _ c p =>
    intro c' qs hq
    rw [display_question_bank] at hq
    exact hb c' qs hq
  | check _ _ q a =>
    intro c' qs hq
    rw [check_answer_bank] at hq
    exact hb c' qs hq
  | shuffle _ _ σ hσ =>
    intro c' qs hq
    have hq' : (g.question_bank.lookup c').map (σ c') = some qs := by
      rw [← lookup_map_shuffle]
      exact hq
    obtain ⟨qs₁, hl₁, hσ₁⟩ := Option.map_eq_some'.mp hq'
    obtain ⟨qs₀, h0, hperm⟩ := hb c' qs₁ hl₁
    exact ⟨qs₀, h0, hσ₁ ▸ (hσ c' qs₁).trans hperm⟩
  | set_player _ _ pl =>
    intro c' qs hq
    exact hb c' qs hq
  | reset _ =>
    intro c' qs hq
    exact hb c' qs hq

theorem reach_bankInv {r : Bool} {g g' : QuizGame} (h : Reach r g g') (hb : bankInv g) :
    bankInv g' := by
  induction h with
  | refl => exact hb
  | tail _ hstep ih => exact step_bankInv hstep ih

theorem initial_points_nodup :
    ∀ cq ∈ initial_question_bank, (cq.2.map Question.points).Nodup := by decide

theorem mem_insertAsc {x y : Int} {l : List Int} :
    y ∈ insertAsc x l ↔ y = x ∨ y ∈ l := by
  induction l with
  | nil => simp [insertAsc]
  | cons z zs ih =>
    by_cases h : x ≤ z
    · simp [insertAsc, h]
    · simp only [insertAsc, if_neg h, List.mem_cons, ih]
      tauto

theorem mem_sortAsc {x : Int} {l : List Int} : x ∈ sortAsc l ↔ x ∈ l := by
  induction l with
  | nil => simp [sortAsc]
  | cons z zs ih => simp [sortAsc, mem_insertAsc, ih]

theorem total_questions_eq_length (g : QuizGame) :
    g.total_questions = (bankQids g).length := by
  unfold QuizGame.total_questions bankQids
  simp [List.length_flatten, List.map_map, Function.comp_def]

theorem mem_bankQids {g : QuizGame} {x : Nat} :
    x ∈ bankQids g ↔ ∃ cq ∈ g.question_bank, ∃ q ∈ cq.2, q.qid = x := by
  unfold bankQids
  simp only [List.mem_flatten, List.mem_map, Prod.exists]
  constructor
  · rintro ⟨l, ⟨a, b, hab, rfl⟩, hx⟩
    obtain ⟨q, hq, hqx⟩ := List.mem_map.mp hx
    exact ⟨a, b, hab, q, hq, hqx⟩
  · rintro ⟨a, b, hab, q, hq, rfl⟩
    exact ⟨b.map Question.qid, ⟨a, b, hab, rfl⟩, List.mem_map.mpr ⟨q, hq, rfl⟩⟩

/-! ## Claim theorems -/

/-- C1: the leaderboard round-trip claimed by the spec never happens: on any
persisted state, `Player("Ann").save_score(500)` raises `AttributeError` on
the unset attribute `_save_file` before it ever appends, sorts, truncates or
writes, so no entry `{name: "Ann", score: 500}` is ever persisted. -/
theorem C1_save_round_trip_fails :
    ∀ fs : FS, (Player.init "Ann").save_score fs 500 =
      Except.error (PyError.attributeError "_save_file") :=
  fun _ => rfl

/-- C2: `Player.__init__` declares `__save_file` (name-mangled to
`_Player__save_file`), but `save_score` reads `self._save_file`; the lookup
of `_save_file` fails, so every call to `save_score`, for every player name,
score and file state, raises before reaching the append/sort/write steps. -/
theorem C2_save_score_always_raises :
    ∀ (name : String) (fs : FS) (score : Int),
      (Player.init name).getattr "_Player__save_file" = some "highscores.json" ∧
      (Player.init name).getattr "_save_file" = none ∧
      (Player.init name).save_score fs score =
        Except.error (PyError.attributeError "_save_file") :=
  fun _ _ _ => ⟨rfl, rfl, rfl⟩

/-- C3 counterexample: with the leaderboard file absent, `load_highscores`
falls off the end of the function and returns `None`, not an empty sequence,
refuting the claim that an absent file yields an empty sequence. -/
theorem C3_absent_file_counterexample :
    ¬ ((Player.init "Anonymous").load_highscores FS.absent =
        Except.ok (some [])) := by
  intro h
  exact Option.noConfusion (Except.ok.inj h)

/-- C3 (amended): `load_highscores` never raises; it returns `[]` when the
file exists but fails to parse as JSON, and returns `None` (not a sequence)
when the file is absent. -/
theorem C3_load_highscores_amended :
    ∀ (name : String) (fs : FS),
      (∃ r, (Player.init name).load_highscores fs = Except.ok r) ∧
      (Player.init name).load_highscores FS.corrupt = Except.ok (some []) ∧
      (Player.init name).load_highscores FS.absent = Except.ok none := by
  intro name fs
  refine ⟨?_, rfl, rfl⟩
  cases fs with
  | absent => exact ⟨none, rfl⟩
  | corrupt => exact ⟨some [], rfl⟩
  | entries l => exact ⟨some l, rfl⟩

/-- C4: starting from a fresh game (score 0), after any sequence of
`check_answer` calls the score is exactly the sum of the points of the calls
on which `check_answer` returned `True`; a `False` result leaves the score
unchanged, a `True` result adds exactly the question's points, and
`display_question`, `shuffle_question_bank` and `set_player` never change
the score, while `reset_game` sets it to 0. -/
theorem C4_score_accounting :
    (∀ calls, (runChecks QuizGame.init calls).score = correctPoints calls) ∧
    (∀ (g : QuizGame) (q : Question) (a : String),
      (g.check_answer q a).1 = false → ((g.check_answer q a).2).score = g.score) ∧
    (∀ (g : QuizGame) (q : Question) (a : String),
      (g.check_answer q a).1 = true →
        ((g.check_answer q a).2).score = g.score + q.points) ∧
    (∀ (g : QuizGame) (c : String) (p : Int),
      ((g.display_question c p).2).score = g.score) ∧
    (∀ (g : QuizGame) (σ : String → List Question → List Question),
      (g.shuffle_question_bank σ).score = g.score) ∧
    (∀ (g : QuizGame) (pl : Player), (g.set_player pl).score = g.score) ∧
    (∀ g : QuizGame, g.reset_game.score = 0) := by
  refine ⟨?_, ?_, ?_, ?_, fun g σ => rfl, fun g pl => rfl, fun g => rfl⟩
  · intro calls
    rw [runChecks_score]
    simp [QuizGame.init]
  · intro g q a h
    rw [check_answer_fst] at h
    rw [check_answer_score, h]
    simp
  · intro g q a h
    rw [check_answer_fst] at h
    rw [check_answer_score, h]
    simp
  · intro g c p
    exact display_question_score g c p

/-- C4 witness: one correct and one wrong answer from the fresh game give
score 100 = `correctPoints`, a wrong answer leaves the score at 0, and
`reset_game` zeroes it. -/
theorem C4_score_accounting_witness :
    (runChecks QuizGame.init
        [(science_questions[0]!, "Au"), (science_questions[1]!, "wrong")]).score =
      correctPoints [(science_questions[0]!, "Au"), (science_questions[1]!, "wrong")] ∧
    ((QuizGame.init.check_answer science_questions[0]! " nope ").2).score =
      QuizGame.init.score ∧
    QuizGame.init.reset_game.score = 0 :=
  ⟨C4_score_accounting.1 _,
   C4_score_accounting.2.1 QuizGame.init (science_questions[0]!) " nope " (by decide),
   C4_score_accounting.2.2.2.2.2.2 QuizGame.init⟩

/-- C5: `check_answer` returns `True` exactly when the user answer, stripped
of surrounding whitespace and lowercased, equals the question's canonical
answer stripped and lowercased; for a question whose canonical answer is
"Paris", the inputs "PARIS" and "paris" yield the same boolean. -/
theorem C5_exact_ignore_case :
    (∀ (g : QuizGame) (q : Question) (u : String),
      ((g.check_answer q u).1 = true ↔
        pyLower (pyStrip u) = pyLower (pyStrip q.correct_answer))) ∧
    (QuizGame.init.check_answer parisQuestion "PARIS").1 =
      (QuizGame.init.check_answer parisQuestion "paris").1 := by
  refine ⟨?_, by decide⟩
  intro g q u
  rw [check_answer_fst]
  unfold answerMatches
  exact beq_iff_eq

/-- C5 witness: the policy theorem instantiated at "PARIS" against "Paris". -/
theorem C5_exact_ignore_case_witness :
    pyLower (pyStrip "PARIS") = pyLower (pyStrip parisQuestion.correct_answer) :=
  (C5_exact_ignore_case.1 QuizGame.init parisQuestion "PARIS").mp (by decide)

/-- C6: the used set starts empty at initialization, and once
`display_question` has returned a question `q` (marking it used), in any
later state reached without `reset_game` no `display_question` call returns
`q` again and `get_available_points` of its category no longer lists its
point value. -/
theorem C6_used_question_permanent
    (g g' : QuizGame) (c c' : String) (p p' : Int) (q : Question)
    (hg : Reach true QuizGame.init g)
    (hq : (g.display_question c p).1 = some q)
    (hg' : Reach false (g.display_question c p).2 g') :
    QuizGame.init.used_questions = ∅ ∧
    (g'.display_question c' p').1 ≠ some q ∧
    q.points ∉ g'.get_available_points c := by
  obtain ⟨qs, hl, hf, hst⟩ := display_question_eq_some hq
  obtain ⟨hmem, hpts, hunused⟩ := findUnused_eq_some hf
  have hused₁ : q.qid ∈ ((g.display_question c p).2).used_questions := by
    rw [hst]
    exact Finset.mem_insert_self _ _
  have husedg' : q.qid ∈ g'.used_questions := reach_used_mono hg' hused₁
  refine ⟨rfl, ?_, ?_⟩
  · intro hq'
    obtain ⟨qs', hl', hf', hst'⟩ := display_question_eq_some hq'
    exact (findUnused_eq_some hf').2.2 husedg'
  · have hbg : bankInv g := reach_bankInv hg bankInv_init
    have hb₁ : bankInv (g.display_question c p).2 := by
      intro c₀ qs₀ hq₀
      rw [display_question_bank] at hq₀
      exact hbg c₀ qs₀ hq₀
    have hbg' : bankInv g' := reach_bankInv hg' hb₁
    intro hin
    unfold QuizGame.get_available_points at hin
    cases hl' : g'.question_bank.lookup c with
    | none => rw [hl'] at hin; simp at hin
    | some qs' =>
      rw [hl'] at hin
      rw [mem_sortAsc] at hin
      obtain ⟨q'', hq''f, hq''p⟩ := List.mem_map.mp hin
      rw [List.mem_filter] at hq''f
      obtain ⟨hq''mem, hq''dec⟩ := hq''f
      have hq''unused : q''.qid ∉ g'.used_questions := of_decide_eq_true hq''dec
      obtain ⟨qs₀, h0, hperm⟩ := hbg c qs hl
      obtain ⟨qs₀', h0', hperm'⟩ := hbg' c qs' hl'
      have h00 : qs₀' = qs₀ := by
        rw [h0] at h0'
        exact (Option.some.inj h0').symm
      subst h00
      have hqin : q ∈ qs₀' := hperm.mem_iff.mp hmem
      have hq''in : q'' ∈ qs₀' := hperm'.mem_iff.mp hq''mem
      have hnodup : (qs₀'.map Question.points).Nodup :=
        initial_points_nodup (c, qs₀') (lookup_mem h0)
      have : q'' = q := List.inj_on_of_nodup_map hnodup hq''in hqin hq''p
      subst this
      exact hq''unused husedg'

/-- C6 witness: displaying Science for 100 from the fresh game returns the
gold question; immediately afterwards it cannot be displayed again and 100
is gone from Science's available points. -/
theorem C6_used_question_permanent_witness :
    QuizGame.init.used_questions = ∅ ∧
    (((QuizGame.init.display_question "Science" 100).2).display_question "Science" 100).1 ≠
      some (science_questions[0]!) ∧
    (science_questions[0]!).points ∉
      ((QuizGame.init.display_question "Science" 100).2).get_available_points "Science" :=
  C6_used_question_permanent QuizGame.init ((QuizGame.init.display_question "Science" 100).2)
    "Science" "Science" 100 100 (science_questions[0]!)
    Relation.ReflTransGen.refl (by decide) Relation.ReflTransGen.refl

/-- C7: on any game state whose used set only holds `id`s of bank questions
(with `id`s pairwise distinct, as object identities are),
`is_game_complete` is `True` iff every question of every category is used,
and it is `False` whenever the used set is a strict subset of the bank's
`id`s. -/
theorem C7_is_game_complete_iff (g : QuizGame)
    (hnd : (bankQids g).Nodup)
    (hsub : g.used_questions ⊆ (bankQids g).toFinset) :
    (g.is_game_complete = true ↔
      ∀ cq ∈ g.question_bank, ∀ q ∈ cq.2, q.qid ∈ g.used_questions) ∧
    (g.used_questions ⊂ (bankQids g).toFinset → g.is_game_complete = false) := by
  have hcard : ((bankQids g).toFinset).card = g.total_questions := by
    rw [List.toFinset_card_of_nodup hnd, total_questions_eq_length]
  constructor
  · constructor
    · intro hc cq hcq q hq
      have hle : g.total_questions ≤ g.used_questions.card := by
        simpa [QuizGame.is_game_complete] using hc
      have heq : g.used_questions = (bankQids g).toFinset :=
        Finset.eq_of_subset_of_card_le hsub (by rw [hcard]; exact hle)
      rw [heq]
      exact List.mem_toFinset.mpr (mem_bankQids.mpr ⟨cq, hcq, q, hq, rfl⟩)
    · intro hall
      have hTsub : (bankQids g).toFinset ⊆ g.used_questions := by
        intro x hx
        obtain ⟨cq, hcq, q, hq, hx'⟩ := mem_bankQids.mp (List.mem_toFinset.mp hx)
        exact hx' ▸ hall cq hcq q hq
      have hle : g.total_questions ≤ g.used_questions.card := by
        rw [← hcard]
        exact Finset.card_le_card hTsub
      simpa [QuizGame.is_game_complete] using hle
  · intro hss
    have hlt : g.used_questions.card < (bankQids g).toFinset.card :=
      Finset.card_lt_card hss
    have hnle : ¬ (g.total_questions ≤ g.used_questions.card) := by
      rw [← hcard]
      omega
    simpa [QuizGame.is_game_complete] using hnle

/-- C7 witness: the spec's 2-category × 2-question store with 3 of 4
questions used is not complete; marking the fourth as well makes it
complete. -/
theorem C7_is_game_complete_iff_witness :
    twoByTwoGame.is_game_complete = false ∧
    { twoByTwoGame with used_questions := {0, 1, 2, 3} }.is_game_complete = true :=
  ⟨(C7_is_game_complete_iff twoByTwoGame (by decide) (by decide)).2 (by decide),
   (C7_is_game_complete_iff { twoByTwoGame with used_questions := {0, 1, 2, 3} }
      (by decide) (by decide)).1.mpr (by decide)⟩

/-- C8: `display_question` returns `None` exactly when the category has no
unused question with the requested points (in particular for an unknown
category), and in that case the game state is completely unchanged. -/
theorem C8_not_found_no_mutation (g : QuizGame) (c : String) (p : Int) :
    ((g.display_question c p).1 = none ↔
      ∀ q ∈ (g.question_bank.lookup c).getD [],
        ¬(q.points = p ∧ q.qid ∉ g.used_questions)) ∧
    ((g.display_question c p).1 = none → (g.display_question c p).2 = g) := by
  refine ⟨?_, fun h => display_question_none_state h⟩
  cases hl : g.question_bank.lookup c with
  | none => simp [QuizGame.display_question, hl]
  | some qs =>
    rw [Option.getD_some]
    cases hf : findUnused g.used_questions p qs with
    | none =>
      simp only [QuizGame.display_question, hl, hf, true_iff]
      exact findUnused_eq_none.mp hf
    | some q =>
      simp only [QuizGame.display_question, hl, hf]
      constructor
      · intro h
        exact Option.noConfusion h
      · intro hforall
        rw [findUnused_eq_none.mpr hforall] at hf
        exact Option.noConfusion hf

/-- C8 witness: asking for 999 points in Science on the fresh game yields
`None` and leaves the state untouched. -/
theorem C8_not_found_no_mutation_witness :
    (QuizGame.init.display_question "Science" 999).1 = none ∧
    (QuizGame.init.display_question "Science" 999).2 = QuizGame.init := by
  have h := C8_not_found_no_mutation QuizGame.init "Science" 999
  have h1 : (QuizGame.init.display_question "Science" 999).1 = none :=
    h.1.mpr (by decide)
  exact ⟨h1, h.2 h1⟩

/-- C9: shuffling replaces each category's question list by a permutation of
it (for any permutation outcome of `random.shuffle`) and changes nothing
else: category names, the used set, the score and the player are untouched. -/
theorem C9_shuffle_frame (g : QuizGame) (σ : String → List Question → List Question)
    (hσ : ∀ c qs, (σ c qs).Perm qs) :
    (∀ c qs, g.question_bank.lookup c = some qs →
      ∃ qs', (g.shuffle_question_bank σ).question_bank.lookup c = some qs' ∧
        qs'.Perm qs) ∧
    (g.shuffle_question_bank σ).question_bank.map Prod.fst =
      g.question_bank.map Prod.fst ∧
    (g.shuffle_question_bank σ).used_questions = g.used_questions ∧
    (g.shuffle_question_bank σ).score = g.score ∧
    (g.shuffle_question_bank σ).player = g.player := by
  refine ⟨?_, ?_, rfl, rfl, rfl⟩
  · intro c qs hq
    refine ⟨σ c qs, ?_, hσ c qs⟩
    show (g.question_bank.map fun cq => (cq.1, σ cq.1 cq.2)).lookup c = some (σ c qs)
    rw [lookup_map_shuffle, hq]
    rfl
  · show (g.question_bank.map fun cq => (cq.1, σ cq.1 cq.2)).map Prod.fst =
      g.question_bank.map Prod.fst
    rw [List.map_map]
    rfl

/-- C9 witness: shuffling the fresh game with reversal as the permutation
outcome keeps Science a permutation of its questions and leaves the used
set and score alone. -/
theorem C9_shuffle_frame_witness :
    (∃ qs', (QuizGame.init.shuffle_question_bank
        fun _ qs => qs.reverse).question_bank.lookup "Science" = some qs' ∧
        qs'.Perm science_questions) ∧
    (QuizGame.init.shuffle_question_bank
        fun _ qs => qs.reverse).used_questions = QuizGame.init.used_questions ∧
    (QuizGame.init.shuffle_question_bank fun _ qs => qs.reverse).score =
      QuizGame.init.score := by
  have h := C9_shuffle_frame QuizGame.init (fun _ qs => qs.reverse)
    (fun _ qs => List.reverse_perm qs)
  exact ⟨h.1 "Science" science_questions rfl, h.2.2.1, h.2.2.2.1⟩

/-- C10: a question returned by `display_question` is marked used at that
moment: the used set gains exactly its `id` (which was not there before),
its count toward `is_game_complete` grows by one, checking any answer —
right or wrong — does not change the used set, and without any answer being
supplied the question is already excluded from every further selection. -/
theorem C10_display_consumes (g : QuizGame) (c : String) (p : Int) (q : Question)
    (hq : (g.display_question c p).1 = some q) :
    q.qid ∉ g.used_questions ∧
    ((g.display_question c p).2).used_questions = insert q.qid g.used_questions ∧
    ((g.display_question c p).2).used_questions.card = g.used_questions.card + 1 ∧
    (∀ a, ((((g.display_question c p).2).check_answer q a).2).used_questions =
      insert q.qid g.used_questions) ∧
    (∀ c' p', (((g.display_question c p).2).display_question c' p').1 ≠ some q) := by
  obtain ⟨qs, hl, hf, hst⟩ := display_question_eq_some hq
  obtain ⟨hmem, hpts, hunused⟩ := findUnused_eq_some hf
  refine ⟨hunused, ?_, ?_, ?_, ?_⟩
  · rw [hst]
  · rw [hst]
    exact Finset.card_insert_of_not_mem hunused
  · intro a
    rw [check_answer_used, hst]
  · intro c' p' hq'
    obtain ⟨qs', hl', hf', hst'⟩ := display_question_eq_some hq'
    have h3 := (findUnused_eq_some hf').2.2
    rw [hst] at h3
    exact h3 (Finset.mem_insert_self _ _)

/-- C10 witness: displaying Science for 100 marks the gold question used
(used set {0}, count 1), checking a wrong answer keeps it used, and it can
no longer be selected. -/
theorem C10_display_consumes_witness :
    (science_questions[0]!).qid ∉ QuizGame.init.used_questions ∧
    ((QuizGame.init.display_question "Science" 100).2).used_questions =
      insert (science_questions[0]!).qid QuizGame.init.used_questions ∧
    ((QuizGame.init.display_question "Science" 100).2).used_questions.card =
      QuizGame.init.used_questions.card + 1 ∧
    ((((QuizGame.init.display_question "Science" 100).2).check_answer
        (science_questions[0]!) "wrong").2).used_questions =
      insert (science_questions[0]!).qid QuizGame.init.used_questions ∧
    (((QuizGame.init.display_question "Science" 100).2).display_question
        "Science" 100).1 ≠ some (science_questions[0]!) := by
  have h := C10_display_consumes QuizGame.init "Science" 100 (science_questions[0]!)
    (by decide)
  exact ⟨h.1, h.2.1, h.2.2.1, h.2.2.2.1 "wrong", h.2.2.2.2 "Science" 100⟩

end Jeopardy
